import Mathlib

/-!
Verification of the schema-driven campaign-migration engine of the
taboola-campaign-agent repository, shallowly embedded in Lean.

The embedding covers:
* the dynamic value universe flowing through the pipeline
  (Python str / int / float / bool / None / list / dict values),
* the structural validator of core/file_processor/schema_validator.py
  (FieldType, FieldDefinition, ValidationIssue, PlatformSchema,
  SchemaValidator.validate_campaigns_against_schema and helpers),
* the field mapper and orchestrator of
  core/migration_module/migration_module.py
  (MappingRule, PlatformAdapter.map_to_taboola, the transform registry,
  MigrationModule.migrate_campaigns_from_file, the data-override patch of
  MigrationModule.migrate_campaign, MigrationModule._upload_to_taboola).

Python floats are modelled as rationals; decimal formatting of numbers in
human-facing message strings is approximated (noted at each spot).  Python
exceptions are modelled as `Except PyErr` with the exception class name and
message carried explicitly.
-/

/-- A dynamic (JSON-like) Python value: str, int, float, bool, None, list,
dict.  Python floats are modelled as exact rationals; dicts as ordered
association lists (Python dicts preserve insertion order and have unique
keys). -/
inductive Value where
  | null : Value
  | boolv : Bool → Value
  | intv : Int → Value
  | num : Rat → Value
  | str : String → Value
  | arr : List Value → Value
  | obj : List (String × Value) → Value

/-- Association-list lookup, the embedding of Python `d[k]` / `k in d` /
`d.get(k)` on dicts (first binding wins; real dicts have unique keys). -/
def alookup {α : Type} (k : String) : List (String × α) → Option α
  | [] => none
  | (k2, v) :: rest => if k = k2 then some v else alookup k rest

/-- A Python dict with string keys and dynamic values: the shape of a
campaign record throughout the pipeline. -/
abbrev PyDict := List (String × Value)

/-- Embeds `value is None` check. -/
def Value.isNull : Value → Bool
  | .null => true
  | _ => false

/-- Python truthiness (`bool(value)` / `if value:`) for the modelled value
universe: None, False, 0, 0.0, "", [] and \x7b\x7d are falsy. -/
def pyTruthy : Value → Bool
  | .null => false
  | .boolv b => b
  | .intv n => n != 0
  | .num q => q != 0
  | .str s => !s.isEmpty
  | .arr l => !l.isEmpty
  | .obj l => !l.isEmpty

/-- The numeric reading of a value used by Python arithmetic and
comparisons: ints and floats are themselves, and `bool` is an `int`
subclass (True = 1, False = 0). Non-numeric values have none. -/
def Value.toRatNum : Value → Option Rat
  | .intv n => some (n : Rat)
  | .num q => some q
  | .boolv b => some (if b then 1 else 0)
  | _ => none

/-- Embeds `type(value).__name__` for the modelled universe. -/
def pyTypeName : Value → String
  | .null => "NoneType"
  | .boolv _ => "bool"
  | .intv _ => "int"
  | .num _ => "float"
  | .str _ => "str"
  | .arr _ => "list"
  | .obj _ => "dict"

/-- Rendering of a modelled float in message strings.  Python prints e.g.
`str(1.0) = "1.0"`; we print integral rationals with a trailing ".0" and
other rationals as a fraction (an approximation of the Python decimal float
formatting; no claim inspects these characters). -/
def ratStr (q : Rat) : String :=
  if q.den = 1 then toString q.num ++ ".0" else toString q.num ++ "/" ++ toString q.den

mutual

/-- Python `repr(value)`, used for elements when formatting containers
(strings are quoted with single quotes). -/
def pyRepr : Value → String
  | .null => "None"
  | .boolv b => if b then "True" else "False"
  | .intv n => toString n
  | .num q => ratStr q
  | .str s => "\x27" ++ s ++ "\x27"
  | .arr l => "[" ++ pyReprList l ++ "]"
  | .obj l => "\x7b" ++ pyReprObj l ++ "\x7d"

/-- Comma-joined reprs of list elements. -/
def pyReprList : List Value → String
  | [] => ""
  | [v] => pyRepr v
  | v :: rest => pyRepr v ++ ", " ++ pyReprList rest

/-- Comma-joined reprs of dict entries. -/
def pyReprObj : List (String × Value) → String
  | [] => ""
  | [(k, v)] => "\x27" ++ k ++ "\x27: " ++ pyRepr v
  | (k, v) :: rest => "\x27" ++ k ++ "\x27: " ++ pyRepr v ++ ", " ++ pyReprObj rest

end

/-- Python `str(value)` as used inside f-strings: like `repr` except that a
top-level string is rendered bare. -/
def pyStr : Value → String
  | .str s => s
  | v => pyRepr v

mutual

/-- Python `==` on the modelled universe: numeric values (int, float, bool)
compare by numeric value, strings and None structurally, lists pairwise.
Dict equality is modelled pairwise in insertion order (Python compares
dicts by key set; the two agree on the equal-key-order dicts that occur in
this repository, where the only values compared via `in allowed_values`
are strings). -/
def valueEq : Value → Value → Bool
  | .str s, .str t => s == t
  | .null, .null => true
  | .arr xs, .arr ys => valueEqList xs ys
  | .obj xs, .obj ys => valueEqObj xs ys
  | a, b =>
    match a.toRatNum, b.toRatNum with
    | some x, some y => x == y
    | _, _ => false

/-- Pairwise list equality for `valueEq`. -/
def valueEqList : List Value → List Value → Bool
  | [], [] => true
  | x :: xs, y :: ys => valueEq x y && valueEqList xs ys
  | _, _ => false

/-- Pairwise dict-entry equality for `valueEq`. -/
def valueEqObj : List (String × Value) → List (String × Value) → Bool
  | [], [] => true
  | (k, v) :: xs, (k2, w) :: ys => k == k2 && valueEq v w && valueEqObj xs ys
  | _, _ => false

end

/-- Python whitespace as recognised by `str.strip()`. -/
def py_space (c : Char) : Bool :=
  c = ' ' || c = '\t' || c = '\n' || c = '\r' || c = '\x0b' || c = '\x0c'

/-- Python `str.strip()`: remove leading and trailing whitespace. -/
def py_strip (s : String) : String :=
  String.mk (((s.data.dropWhile py_space).reverse.dropWhile py_space).reverse)

/-- Parse a run of decimal digits. -/
def digitsToNat : List Char → Option Nat
  | [] => none
  | cs => if cs.all Char.isDigit then some (cs.foldl (fun a c => a * 10 + (c.toNat - 48)) 0) else none

/-- The integer-literal parse inside Python `int(str)`: optional sign
followed by at least one digit (Python additionally accepts underscores
and unicode digits, not modelled). -/
def py_parse_int (s : String) : Option Int :=
  match s.data with
  | '-' :: rest => (digitsToNat rest).map (fun n => -(n : Int))
  | '+' :: rest => (digitsToNat rest).map (fun n => (n : Int))
  | cs => (digitsToNat cs).map (fun n => (n : Int))

/-- Python `str.lower()` on the ASCII platform names used here. -/
def py_lower (s : String) : String :=
  String.mk (s.data.map Char.toLower)

/-! ## Structural validator (core/file_processor/schema_validator.py) -/

/-- The closed `FieldType` enumeration of schema_validator.py. -/
inductive FieldType where
  | string | number | integer | boolean | object | array
  deriving DecidableEq

/-- The `.value` string of a `FieldType` member. -/
def FieldType.value : FieldType → String
  | .string => "string"
  | .number => "number"
  | .integer => "integer"
  | .boolean => "boolean"
  | .object => "object"
  | .array => "array"

/-- Embeds `FieldDefinition`: one validation rule of schema_validator.py.
`allowed_values` and `nested_schema` are modelled as plain lists with `[]`
for Python `None`: the code only ever tests them for truthiness
(`if field_def.allowed_values and ...`, `field_def.nested_schema and ...`),
under which `None` and an empty container behave identically. -/
inductive FieldDefinition where
  | mk
    (name : String)
    (field_type : FieldType)
    (required : Bool)
    (description : String)
    (min_value : Option Rat)
    (max_value : Option Rat)
    (allowed_values : List Value)
    (nested_schema : List (String × FieldDefinition))

/-- Accessor for `FieldDefinition.name`. -/
def FieldDefinition.name : FieldDefinition → String
  | .mk n _ _ _ _ _ _ _ => n

/-- Accessor for `FieldDefinition.field_type`. -/
def FieldDefinition.field_type : FieldDefinition → FieldType
  | .mk _ ft _ _ _ _ _ _ => ft

/-- Accessor for `FieldDefinition.required`. -/
def FieldDefinition.required : FieldDefinition → Bool
  | .mk _ _ r _ _ _ _ _ => r

/-- Accessor for `FieldDefinition.description`. -/
def FieldDefinition.description : FieldDefinition → String
  | .mk _ _ _ d _ _ _ _ => d

/-- Accessor for `FieldDefinition.min_value`. -/
def FieldDefinition.min_value : FieldDefinition → Option Rat
  | .mk _ _ _ _ mn _ _ _ => mn

/-- Accessor for `FieldDefinition.max_value`. -/
def FieldDefinition.max_value : FieldDefinition → Option Rat
  | .mk _ _ _ _ _ mx _ _ => mx

/-- Accessor for `FieldDefinition.allowed_values`. -/
def FieldDefinition.allowed_values : FieldDefinition → List Value
  | .mk _ _ _ _ _ _ av _ => av

/-- Accessor for `FieldDefinition.nested_schema`. -/
def FieldDefinition.nested_schema : FieldDefinition → List (String × FieldDefinition)
  | .mk _ _ _ _ _ _ _ ns => ns

/-- Embeds `ValidationIssue` of schema_validator.py.  `expected` and `actual` are
typed `Any` in the source but every constructed issue stores strings. -/
structure ValidationIssue where
  campaign_index : Nat
  field_path : String
  issue_type : String
  expected : String
  actual : String
  description : String
  deriving DecidableEq

/-- Embeds `SchemaValidator._check_type`: Python `isinstance` checks.  Note that
Python `bool` is a subclass of `int`, so booleans pass the `integer` and
`number` checks (faithful to `isinstance(value, (int, float))`). -/
def check_type (value : Value) (expected_type : FieldType) : Bool :=
  match expected_type with
  | .string => match value with | .str _ => true | _ => false
  | .number => match value with | .intv _ => true | .num _ => true | .boolv _ => true | _ => false
  | .integer => match value with | .intv _ => true | .boolv _ => true | _ => false
  | .boolean => match value with | .boolv _ => true | _ => false
  | .object => match value with | .obj _ => true | _ => false
  | .array => match value with | .arr _ => true | _ => false

/-- Rendering of a `min_value`/`max_value` bound inside an issue message
(the schemas in this repository pass these as Python int or float literals;
integral bounds are printed bare, matching the int literals used in the
nested age rules). -/
def boundStr (q : Rat) : String :=
  if q.den = 1 then toString q.num else ratStr q

/-- The `missing_required_field` issue built at schema_validator.py:158. -/
def missing_issue (campaign_index : Nat) (field_name : String) (fd : FieldDefinition) : ValidationIssue :=
  { campaign_index := campaign_index
    field_path := field_name
    issue_type := "missing_required_field"
    expected := "Required field \x27" ++ field_name ++ "\x27"
    actual := "Missing"
    description := "Missing required field: " ++ field_name ++ " - " ++ fd.description }

/-- The `type_mismatch` issue built at schema_validator.py:194. -/
def type_mismatch_issue (campaign_index : Nat) (field_path : String) (ft : FieldType) (value : Value) : ValidationIssue :=
  { campaign_index := campaign_index
    field_path := field_path
    issue_type := "type_mismatch"
    expected := ft.value
    actual := pyTypeName value ++ ": " ++ pyStr value
    description := "Expected " ++ ft.value ++ ", got " ++ pyTypeName value }

/-- The `value_too_small` issue built at schema_validator.py:207. -/
def too_small_issue (campaign_index : Nat) (field_path : String) (mn : Rat) (value : Value) : ValidationIssue :=
  { campaign_index := campaign_index
    field_path := field_path
    issue_type := "value_too_small"
    expected := ">= " ++ boundStr mn
    actual := pyStr value
    description := "Value " ++ pyStr value ++ " is below minimum " ++ boundStr mn }

/-- The `value_too_large` issue built at schema_validator.py:217. -/
def too_large_issue (campaign_index : Nat) (field_path : String) (mx : Rat) (value : Value) : ValidationIssue :=
  { campaign_index := campaign_index
    field_path := field_path
    issue_type := "value_too_large"
    expected := "<= " ++ boundStr mx
    actual := pyStr value
    description := "Value " ++ pyStr value ++ " exceeds maximum " ++ boundStr mx }

/-- The `invalid_value` issue built at schema_validator.py:228. -/
def invalid_value_issue (campaign_index : Nat) (field_path : String) (allowed : List Value) (value : Value) : ValidationIssue :=
  { campaign_index := campaign_index
    field_path := field_path
    issue_type := "invalid_value"
    expected := "One of: " ++ pyStr (.arr allowed)
    actual := pyStr value
    description := "Value \x27" ++ pyStr value ++ "\x27 not in allowed values: " ++ pyStr (.arr allowed) }

/-- The `empty_string` issue built at schema_validator.py:239. -/
def empty_string_issue (campaign_index : Nat) (field_path : String) : ValidationIssue :=
  { campaign_index := campaign_index
    field_path := field_path
    issue_type := "empty_string"
    expected := "Non-empty string"
    actual := "Empty string"
    description := "Field \x27" ++ field_path ++ "\x27 cannot be empty" }

/-- The `unknown_field` issue built at schema_validator.py:177. -/
def unknown_field_issue (campaign_index : Nat) (field_name : String) (value : Value) (platform : String) : ValidationIssue :=
  { campaign_index := campaign_index
    field_path := field_name
    issue_type := "unknown_field"
    expected := "Field not in schema"
    actual := "Field \x27" ++ field_name ++ "\x27 with value: " ++ pyStr value
    description := "Unknown field \x27" ++ field_name ++ "\x27 not defined in " ++ platform ++ " schema" }

/-- The numeric-bounds block of `SchemaValidator._validate_field_value`
(schema_validator.py:205): for number/integer fields whose value is
numeric (Python `isinstance(value, (int, float))`, which admits bools),
an inclusive bound violation emits `value_too_small` / `value_too_large`;
both checks run. -/
def range_issues (value : Value) (ft : FieldType) (mn mx : Option Rat) (campaign_index : Nat) (field_path : String) : List ValidationIssue :=
  if ft = .number || ft = .integer then
    match value.toRatNum with
    | some q =>
      (match mn with
       | some m => if q < m then [too_small_issue campaign_index field_path m value] else []
       | none => []) ++
      (match mx with
       | some m => if q > m then [too_large_issue campaign_index field_path m value] else []
       | none => [])
    | none => []
  else []

/-- The allowed-values block of `SchemaValidator._validate_field_value`
(schema_validator.py:227): membership failure in a truthy
`allowed_values` emits `invalid_value`. -/
def allowed_issues (value : Value) (allowed : List Value) (campaign_index : Nat) (field_path : String) : List ValidationIssue :=
  if !allowed.isEmpty && !(allowed.any (fun a => valueEq value a)) then
    [invalid_value_issue campaign_index field_path allowed value]
  else []

/-- The empty-string block of `SchemaValidator._validate_field_value`
(schema_validator.py:238): a string field whose value strips to nothing
emits `empty_string`. -/
def empty_string_issues (value : Value) (ft : FieldType) (campaign_index : Nat) (field_path : String) : List ValidationIssue :=
  match ft, value with
  | .string, .str s => if (py_strip s).isEmpty then [empty_string_issue campaign_index field_path] else []
  | _, _ => []

mutual

/-- Embeds `SchemaValidator._validate_field_value`: type check (early return on
mismatch), then numeric bounds, allowed values, empty string, and the
nested-object recursion, in source order. -/
def validate_field_value (value : Value) (fd : FieldDefinition) (campaign_index : Nat) (field_path : String) : List ValidationIssue :=
  match fd with
  | .mk _ ft _ _ mn mx allowed ns =>
    if !check_type value ft then
      [type_mismatch_issue campaign_index field_path ft value]
    else
      range_issues value ft mn mx campaign_index field_path ++
      allowed_issues value allowed campaign_index field_path ++
      empty_string_issues value ft campaign_index field_path ++
      (if ft = .object && !ns.isEmpty then
        match value with
        | .obj entries => validate_nested entries ns campaign_index field_path
        | _ => []
      else [])

/-- The nested-schema loop at schema_validator.py:250: for every nested
rule whose key is present in the value, recurse with the field path
extended by `"." ++ key`. -/
def validate_nested (entries : List (String × Value)) (ns : List (String × FieldDefinition)) (campaign_index : Nat) (field_path : String) : List ValidationIssue :=
  match ns with
  | [] => []
  | (k, nd) :: rest =>
    (match alookup k entries with
     | some v => validate_field_value v nd campaign_index (field_path ++ "." ++ k)
     | none => []) ++
    validate_nested entries rest campaign_index field_path

end

/-- The per-schema-field step of `SchemaValidator._validate_single_campaign`:
a required absent field yields `missing_required_field` and skips further
checks; a present field is validated by `validate_field_value`; a
non-required absent field yields nothing. -/
def validate_schema_field (campaign : PyDict) (campaign_index : Nat) (field_name : String) (fd : FieldDefinition) : List ValidationIssue :=
  match alookup field_name campaign with
  | none => if fd.required then [missing_issue campaign_index field_name fd] else []
  | some v => validate_field_value v fd campaign_index field_name

/-- Embeds `SchemaValidator._validate_single_campaign`: the schema loop followed
by the unknown-field loop over the keys of the record itself. -/
def validate_single_campaign (campaign : PyDict) (platform : String) (schema_fields : List (String × FieldDefinition)) (campaign_index : Nat) : List ValidationIssue :=
  (schema_fields.flatMap (fun p => validate_schema_field campaign campaign_index p.1 p.2)) ++
  (campaign.flatMap (fun p =>
    if (alookup p.1 schema_fields).isSome then []
    else [unknown_field_issue campaign_index p.1 p.2 platform]))

/-- The Facebook branch of `PlatformSchema._load_platform_schema`
(schema_validator.py:46): the complete validation rule set, verbatim. -/
def facebook_schema_fields : List (String × FieldDefinition) :=
  [ ("name", .mk ("name") .string true ("Campaign name - must be a non-empty string") none none [] []),
    ("objective", .mk ("objective") .string true ("Campaign objective") none none
      [.str ("LINK_CLICKS"), .str ("CONVERSIONS"), .str ("REACH"), .str ("BRAND_AWARENESS")] []),
    ("daily_budget", .mk ("daily_budget") .number true ("Daily budget in USD") (some 1) (some 100000) [] []),
    ("targeting", .mk ("targeting") .object false ("Targeting configuration object") none none []
      [ ("geo", .mk ("geo") .string false ("Geographic targeting") none none [] []),
        ("age_min", .mk ("age_min") .integer false ("Minimum age") (some 13) (some 65) [] []),
        ("age_max", .mk ("age_max") .integer false ("Maximum age") (some 18) (some 65) [] []),
        ("interests", .mk ("interests") .array false ("Interest targeting") none none [] []) ]),
    ("creatives", .mk ("creatives") .array false ("Creative assets array") none none [] []) ]

/-- The Twitter branch of `PlatformSchema._load_platform_schema`
(schema_validator.py:88). -/
def twitter_schema_fields : List (String × FieldDefinition) :=
  [ ("name", .mk ("name") .string true ("Campaign name - must be a non-empty string") none none [] []),
    ("total_budget", .mk ("total_budget") .number true ("Total campaign budget in USD") (some 1) none [] []),
    ("account_name", .mk ("account_name") .string false ("Twitter account name") none none [] []),
    ("tweet_creatives", .mk ("tweet_creatives") .array false ("Tweet creative content array") none none [] []) ]

/-- Embeds `PlatformSchema._load_platform_schema` (schema_validator.py:44): the
facebook and twitter rule sets, and the `else` branch returning an empty
rule set for every other platform. -/
def load_platform_schema (platform : String) : List (String × FieldDefinition) :=
  if platform = "facebook" then facebook_schema_fields
  else if platform = "twitter" then twitter_schema_fields
  else []

/-- The per-record loop of
`SchemaValidator.validate_campaigns_against_schema`, carrying the running
batch index: a record with no issues is appended to `valid_campaigns`,
otherwise its issues are appended to the aggregate list. -/
def validate_campaigns_loop (platform : String) (schema_fields : List (String × FieldDefinition)) :
    List PyDict → Nat → (List PyDict × List ValidationIssue)
  | [], _ => ([], [])
  | c :: rest, i =>
    let campaign_issues := validate_single_campaign c platform schema_fields i
    let r := validate_campaigns_loop platform schema_fields rest (i + 1)
    if campaign_issues.isEmpty then (c :: r.1, r.2) else (r.1, campaign_issues ++ r.2)

/-- Embeds `SchemaValidator.validate_campaigns_against_schema`
(schema_validator.py:125): loads the platform schema and runs the
per-record loop from batch index 0. -/
def validate_campaigns_against_schema (campaigns : List PyDict) (platform : String) :
    List PyDict × List ValidationIssue :=
  validate_campaigns_loop platform (load_platform_schema platform) campaigns 0

/-! ## Field mapper and orchestrator (core/migration_module/migration_module.py) -/

/-- A Python exception, carried as its class name plus message. -/
structure PyErr where
  cls : String
  msg : String
  deriving DecidableEq

/-- Embeds `MappingRule` of core/migration_module/schema_models.py.  The mapper
reads the rule through `schema.dict()` with `.get`, under which an unset
optional and an explicit `None` coincide; `field_type` defaults to
`"string"`. -/
structure MappingRule where
  source_field : Option String := none
  default : Option Value := none
  field_type : String := "string"
  transform : Option String := none
  warning : Option String := none

/-- Truncation toward zero: Python `int(float)`. -/
def ratTrunc (q : Rat) : Int :=
  if q < 0 then -((-q).floor) else q.floor

/-- Python `int(value)` restricted to the modelled universe: ints and bools
pass through, floats truncate toward zero, strings are parsed after
stripping whitespace (ValueError on failure; Python additionally accepts
underscores and unicode digits, not modelled), anything else is a
TypeError. -/
def pyInt : Value → Except PyErr Value
  | .intv n => .ok (.intv n)
  | .boolv b => .ok (.intv (if b then 1 else 0))
  | .num q => .ok (.intv (ratTrunc q))
  | .str s =>
    match py_parse_int (py_strip s) with
    | some n => .ok (.intv n)
    | none => .error ⟨("ValueError"), "invalid literal for int() with base 10: \x27" ++ s ++ "\x27"⟩
  | v => .error ⟨("TypeError"), "int() argument must be a string, a bytes-like object or a real number, not \x27" ++ pyTypeName v ++ "\x27"⟩

/-- Split a character list at the first dot. -/
def splitDot : List Char → (List Char × Option (List Char))
  | [] => ([], none)
  | c :: rest =>
    if c = '.' then ([], some rest)
    else
      let r := splitDot rest
      (c :: r.1, r.2)

/-- Parse a (sign, digits, optional fractional digits) decimal literal, the
core of Python `float(str)` (exponents, `inf` and `nan` are not modelled;
no claim depends on them). -/
def parseDecimal (s : String) : Option Rat :=
  let cs := s.data
  let signed : Int × List Char :=
    match cs with
    | '-' :: rest => (-1, rest)
    | '+' :: rest => (1, rest)
    | _ => (1, cs)
  let parts := splitDot signed.2
  match parts.2 with
  | none =>
    match digitsToNat parts.1 with
    | some n => some (signed.1 * n)
    | none => none
  | some frac =>
    match parts.1, frac with
    | [], [] => none
    | ip, fp =>
      let ipn : Option Nat := if ip.isEmpty then some 0 else digitsToNat ip
      let fpn : Option Nat := if fp.isEmpty then some 0 else digitsToNat fp
      match ipn, fpn with
      | some i, some f =>
        some ((signed.1 : Rat) * ((i : Rat) + (f : Rat) / ((10 : Rat) ^ fp.length)))
      | _, _ => none

/-- Python `float(value)` restricted to the modelled universe. -/
def pyFloat : Value → Except PyErr Value
  | .intv n => .ok (.num (n : Rat))
  | .boolv b => .ok (.num (if b then 1 else 0))
  | .num q => .ok (.num q)
  | .str s =>
    match parseDecimal (py_strip s) with
    | some q => .ok (.num q)
    | none => .error ⟨("ValueError"), "could not convert string to float: \x27" ++ s ++ "\x27"⟩
  | v => .error ⟨("TypeError"), "float() argument must be a string or a real number, not \x27" ++ pyTypeName v ++ "\x27"⟩

/-- The type-coercion step of `map_to_taboola` (migration_module.py:116):
`int(value)` / `float(value)` / `bool(value)` by declared `field_type`;
any other `field_type` (in particular `"string"`) leaves the value as is.
`bool(value)` never raises on the modelled universe, exactly as in Python
for the builtin types a record can hold. -/
def cast_value (field_type : String) (value : Value) : Except PyErr Value :=
  if field_type = "integer" then pyInt value
  else if field_type = "float" then pyFloat value
  else if field_type = "boolean" then .ok (.boolv (pyTruthy value))
  else .ok value

/-- Embeds `PlatformAdapter._divide_by_100`: `value / 100 if value is not None
else None`.  Python true division on int/float/bool yields a float;
non-numeric operands raise TypeError. -/
def divide_by_100 : Value → Except PyErr Value
  | .null => .ok .null
  | v =>
    match v.toRatNum with
    | some q => .ok (.num (q / 100))
    | none => .error ⟨("TypeError"), "unsupported operand type(s) for /: \x27" ++ pyTypeName v ++ "\x27 and \x27int\x27"⟩

/-- The body of the creative-extraction comprehensions: each element must
be a dict (anything else lacks `.get` and raises); absent keys give None. -/
def creative_pairs (url_key title_key : String) : List Value → Except PyErr (List Value)
  | [] => .ok []
  | .obj c :: rest =>
    match creative_pairs url_key title_key rest with
    | .ok tail =>
      .ok (.obj [("photo_url", (alookup url_key c).getD .null), ("title", (alookup title_key c).getD .null)] :: tail)
    | .error e => .error e
  | v :: _ => .error ⟨("AttributeError"), "\x27" ++ pyTypeName v ++ "\x27 object has no attribute \x27get\x27"⟩

/-- Embeds `PlatformAdapter._extract_creative_data`: `creatives or []` maps any
falsy input to an empty list; a truthy non-list fails when iterated or
when `.get` is called on its elements (modelled as the error case). -/
def extract_creative_data (creatives : Value) : Except PyErr Value :=
  if !pyTruthy creatives then .ok (.arr [])
  else
    match creatives with
    | .arr cs =>
      match creative_pairs ("image_url") ("headline") cs with
      | .ok l => .ok (.arr l)
      | .error e => .error e
    | v => .error ⟨("TypeError"), "\x27" ++ pyTypeName v ++ "\x27 object is not iterable"⟩

/-- Embeds `PlatformAdapter._extract_tweet_creative_data`, identical shape with
Twitter key names. -/
def extract_tweet_creative_data (creatives : Value) : Except PyErr Value :=
  if !pyTruthy creatives then .ok (.arr [])
  else
    match creatives with
    | .arr cs =>
      match creative_pairs ("media_url") ("text") cs with
      | .ok l => .ok (.arr l)
      | .error e => .error e
    | v => .error ⟨("TypeError"), "\x27" ++ pyTypeName v ++ "\x27 object is not iterable"⟩

/-- Embeds `self.transformations`: the fixed named transform registry built in
`PlatformAdapter.__init__`. -/
def transformations : List (String × (Value → Except PyErr Value)) :=
  [ ("divide_by_100", divide_by_100),
    ("extract_creative_data", extract_creative_data),
    ("extract_tweet_creative_data", extract_tweet_creative_data) ]

/-- The value read for one mapping rule before the cast step
(migration_module.py:107): `source_data[source_field]` when the (truthy)
source field is present, else None; then the named transform, when its
(truthy) name is in the registry, applied to the possibly-absent value.
A transform may raise (e.g. `_divide_by_100` on a non-numeric value). -/
def field_value (rule : MappingRule) (source_data : PyDict) : Except PyErr Value :=
  let value : Value :=
    match rule.source_field with
    | some sf => if sf ≠ "" then (alookup sf source_data).getD .null else .null
    | none => .null
  match rule.transform with
  | some tn =>
    if tn ≠ "" then
      match alookup tn transformations with
      | some f => f value
      | none => .ok value
    else .ok value
  | none => .ok value

/-- The cast-failure warning appended at migration_module.py:123. -/
def cast_warning (taboola_field field_type : String) (e : PyErr) : String :=
  "Could not cast " ++ taboola_field ++ " to " ++ field_type ++ ". Error: " ++ e.msg

/-- The report warning appended at migration_module.py:129 when a field has
neither a value nor a default. -/
def no_value_warning (taboola_field : String) : String :=
  "No value or default found for required field \x27" ++ taboola_field ++ "\x27."

/-- The static warning of a rule as appended by `if warning:` at
migration_module.py:131 (a falsy — absent or empty — warning appends
nothing). -/
def static_warning (rule : MappingRule) : List String :=
  match rule.warning with
  | some w => if w ≠ "" then [w] else []
  | none => []

/-- The outcome of processing one mapping rule: an optional binding for the
target record, the warnings appended to the returned warnings list, and
the warnings appended directly to the migration report. -/
structure FieldOutcome where
  binding : Option (String × Value)
  warnings : List String
  report_warnings : List String

/-- One iteration of the `map_to_taboola` loop (migration_module.py:100):
read+transform the value; a non-None value is cast (a cast failure warns
and `continue`s, skipping both the assignment and the static warning); a
None value falls back to a non-None default; otherwise a warning is added
to the migration report.  Every path except the cast failure then appends
the static warning.  A transform exception propagates out of the loop. -/
def map_field (taboola_field : String) (rule : MappingRule) (source_data : PyDict) :
    Except PyErr FieldOutcome :=
  match field_value rule source_data with
  | .error e => .error e
  | .ok value =>
    if !value.isNull then
      match cast_value rule.field_type value with
      | .error e => .ok ⟨none, [cast_warning taboola_field rule.field_type e], []⟩
      | .ok v => .ok ⟨some (taboola_field, v), static_warning rule, []⟩
    else if !(rule.default.getD .null).isNull then
      .ok ⟨some (taboola_field, rule.default.getD .null), static_warning rule, []⟩
    else
      .ok ⟨none, static_warning rule, [no_value_warning taboola_field]⟩

/-- Python dict assignment `d[k] = v` for unique-key dicts: replace the
binding in place when the key is present, else append it. -/
def dict_set : PyDict → String → Value → PyDict
  | [], k, v => [(k, v)]
  | (k2, w) :: rest, k, v =>
    if k2 = k then (k, v) :: rest else (k2, w) :: dict_set rest k v

/-- Python `del d[k]` for unique-key dicts. -/
def dict_del (d : PyDict) (k : String) : PyDict :=
  d.filter (fun p => p.1 ≠ k)

/-- The `map_to_taboola` loop over the mapping schema, threading the target
record under construction, the warnings list, and the report warnings
already added.  A transform exception aborts the loop, losing the local
record and warnings but keeping the report warnings already added
(faithful to the mutable report object). -/
def map_fields (source_data : PyDict) :
    List (String × MappingRule) → PyDict → List String → List String →
    Except PyErr (PyDict × List String) × List String
  | [], campaign, warns, rep => (.ok (campaign, warns), rep)
  | (tf, rule) :: rest, campaign, warns, rep =>
    match map_field tf rule source_data with
    | .error e => (.error e, rep)
    | .ok o =>
      let campaign2 := match o.binding with
        | some b => dict_set campaign b.1 b.2
        | none => campaign
      map_fields source_data rest campaign2 (warns ++ o.warnings) (rep ++ o.report_warnings)

/-- Embeds `PlatformAdapter.map_to_taboola` (migration_module.py:92): maps source
data to the Taboola shape, returning `(result or raised exception,
warnings added to the migration report)`.  The first component carries the
target record plus the returned warnings list. -/
def map_to_taboola (schema : List (String × MappingRule)) (source_data : PyDict) :
    Except PyErr (PyDict × List String) × List String :=
  map_fields source_data schema [] [] []

/-! ### Migration orchestrator -/

/-- Embeds `MigrationReport`: the three append-only sequences.  A failure entry is
`(message, error string)` — the second slot receives the exception class
name at every call site in migration_module.py. -/
structure MigrationReport where
  successes : List String
  failures : List (String × String)
  warnings : List String
  deriving DecidableEq

/-- Embeds `MigrationModule._upload_to_taboola` (migration_module.py:325): calls
the injected Taboola client; a successful response appends a success
naming the name and id fields of the response, and an
ApiError/ApiException appends a failure.  The mocked client raises only
those two classes, so the sink is modelled as total over `Except PyErr`. -/
def upload_to_taboola (sink : PyDict → Except PyErr PyDict) (taboola_data : PyDict)
    (report : MigrationReport) : MigrationReport :=
  match sink taboola_data with
  | .ok response =>
    let n := pyStr ((alookup ("name") response).getD .null)
    let i := pyStr ((alookup ("id") response).getD .null)
    { report with successes :=
        report.successes ++ ["Campaign \x27" ++ n ++ "\x27 created in Taboola with ID \x27" ++ i ++ "\x27."] }
  | .error e =>
    { report with failures :=
        report.failures ++ [("Failed to create campaign in Taboola: " ++ e.msg, e.cls)] }

/-- The campaign display name used in message strings
(migration_module.py:259): the name field of the record when present,
else Campaign_ followed by the 1-based index. -/
def campaign_display_name (campaign_data : PyDict) (i : Nat) : String :=
  match alookup ("name") campaign_data with
  | some v => pyStr v
  | none => "Campaign_" ++ toString (i + 1)

/-- One iteration of the batch loop of
`MigrationModule.migrate_campaigns_from_file` (migration_module.py:258):
map, append report warnings and prefixed mapper warnings, upload, and then
unconditionally append the per-campaign "Successfully migrated" success —
also when `_upload_to_taboola` has just recorded the upload as a failure,
since that helper swallows the rejection.  A mapping exception is caught
by the per-record `except` and appended as a failure, and the loop
continues with the next record. -/
def process_file_record (schema : List (String × MappingRule)) (sink : PyDict → Except PyErr PyDict)
    (i : Nat) (campaign_data : PyDict) (report : MigrationReport) : MigrationReport :=
  let campaign_name := campaign_display_name campaign_data i
  match map_to_taboola schema campaign_data with
  | (.error e, rep) =>
    { report with
        warnings := report.warnings ++ rep,
        failures := report.failures ++
          [("Failed to migrate campaign \x27" ++ campaign_name ++ "\x27: " ++ e.msg, e.cls)] }
  | (.ok (taboola_data, warns), rep) =>
    let r1 := { report with warnings :=
      report.warnings ++ rep ++ warns.map (fun w => "Campaign \x27" ++ campaign_name ++ "\x27: " ++ w) }
    let r2 := upload_to_taboola sink taboola_data r1
    { r2 with successes :=
        r2.successes ++ ["Successfully migrated campaign \x27" ++ campaign_name ++ "\x27"] }

/-- The indexed fold of the batch loop over the file records. -/
def process_file_records (schema : List (String × MappingRule)) (sink : PyDict → Except PyErr PyDict) :
    List PyDict → Nat → MigrationReport → MigrationReport
  | [], _, report => report
  | c :: rest, i, report =>
    process_file_records schema sink rest (i + 1) (process_file_record schema sink i c report)

/-- Embeds `MigrationModule.migrate_campaigns_from_file` (migration_module.py:237):
an unsupported source platform yields a single AdapterNotFound failure and
no per-record attempt; otherwise every record is processed in order
against a fresh report.  The per-platform mapping schemas are the
schema files loaded by the adapters, passed here as data. -/
def migrate_campaigns_from_file (adapters : List (String × List (String × MappingRule)))
    (sink : PyDict → Except PyErr PyDict) (source_platform : String)
    (file_data : List PyDict) : MigrationReport :=
  match alookup (py_lower source_platform) adapters with
  | none =>
    { successes := [], warnings := [],
      failures := [("Migration from \x27" ++ source_platform ++ "\x27 is not supported.", "AdapterNotFound")] }
  | some schema => process_file_records schema sink file_data 0 ⟨[], [], []⟩

/-- One entry of the `data_override` patch loop of
`MigrationModule.migrate_campaign` (migration_module.py:296): a None value
deletes the key when present; a non-None value assigns it. -/
def apply_override_item (taboola_data : PyDict) (kv : String × Value) : PyDict :=
  if kv.2.isNull then
    if (alookup kv.1 taboola_data).isSome then dict_del taboola_data kv.1 else taboola_data
  else dict_set taboola_data kv.1 kv.2

/-- The whole `data_override` patch step applied after mapping
(migration_module.py:295). -/
def apply_data_override (taboola_data : PyDict) (data_override : List (String × Value)) : PyDict :=
  data_override.foldl apply_override_item taboola_data

/-- Embeds `PlatformAdapter._load_schema` (migration_module.py:54): opens and
parses the schema JSON file of the platform.  The file system is passed as
data: a missing file is the `FileNotFoundError` branch, a present file
either parses to a schema or raises its JSONDecodeError /
pydantic ValidationError; all three exception kinds are logged and
re-raised. -/
def load_schema (schema_file : Option (Except PyErr (List (String × MappingRule)))) :
    Except PyErr (List (String × MappingRule)) :=
  match schema_file with
  | none => .error ⟨("FileNotFoundError"), "No such file or directory"⟩
  | some (.error e) => .error e
  | some (.ok s) => .ok s

/-! ## Basic lemmas about dict lookup and the dict operations -/

theorem alookup_nil {α : Type} (k : String) : alookup k ([] : List (String × α)) = none := rfl

theorem alookup_cons {α : Type} (k k2 : String) (v : α) (l : List (String × α)) :
    alookup k ((k2, v) :: l) = if k = k2 then some v else alookup k l := rfl

theorem alookup_eq_none {α : Type} {k : String} {l : List (String × α)} :
    alookup k l = none ↔ ∀ p ∈ l, p.1 ≠ k := by
  induction l with
  | nil => simp [alookup]
  | cons hd tl ih =>
    obtain ⟨k2, v⟩ := hd
    by_cases h : k = k2
    · subst h
      simp [alookup_cons]
    · rw [alookup_cons, if_neg h, ih]
      simp only [List.forall_mem_cons]
      exact ⟨fun h2 => ⟨fun hc => h hc.symm, h2⟩, fun h2 => h2.2⟩

theorem alookup_eq_some_of_mem_nodup {α : Type} {k : String} {v : α} {l : List (String × α)}
    (hmem : (k, v) ∈ l) (hnd : (l.map Prod.fst).Nodup) : alookup k l = some v := by
  induction l with
  | nil => cases hmem
  | cons hd tl ih =>
    obtain ⟨k2, w⟩ := hd
    rw [List.map_cons, List.nodup_cons] at hnd
    rcases List.mem_cons.mp hmem with heq | htl
    · obtain ⟨hk, hv⟩ := Prod.mk.injEq .. ▸ heq
      subst hk; subst hv
      simp [alookup_cons]
    · have hne : k ≠ k2 := by
        intro h
        exact hnd.1 (h ▸ (List.mem_map.mpr ⟨(k, v), htl, rfl⟩))
      simp [alookup_cons, hne, ih htl hnd.2]

theorem alookup_dict_set (m : PyDict) (k : String) (v : Value) (k2 : String) :
    alookup k2 (dict_set m k v) = if k2 = k then some v else alookup k2 m := by
  induction m with
  | nil =>
    by_cases h : k2 = k <;> simp [dict_set, alookup_cons, alookup, h]
  | cons hd tl ih =>
    obtain ⟨k1, w⟩ := hd
    by_cases h : k1 = k
    · subst h
      by_cases h2 : k2 = k1 <;> simp [dict_set, alookup_cons, h2]
    · have hds : dict_set ((k1, w) :: tl) k v = (k1, w) :: dict_set tl k v := by
        simp [dict_set, h]
      rw [hds, alookup_cons, ih, alookup_cons]
      by_cases h2 : k2 = k1
      · subst h2
        have hne : ¬(k2 = k) := fun hc => h (hc ▸ rfl)
        simp [hne]
      · simp [h2]

theorem alookup_dict_del (m : PyDict) (k k2 : String) :
    alookup k2 (dict_del m k) = if k2 = k then none else alookup k2 m := by
  induction m with
  | nil => simp [dict_del, alookup]
  | cons hd tl ih =>
    obtain ⟨k1, w⟩ := hd
    by_cases h : k1 = k
    · subst h
      have : dict_del ((k1, w) :: tl) k1 = dict_del tl k1 := by
        simp [dict_del, List.filter]
      rw [this, ih, alookup_cons]
      by_cases h2 : k2 = k1 <;> simp [h2]
    · have : dict_del ((k1, w) :: tl) k = (k1, w) :: dict_del tl k := by
        simp [dict_del, List.filter, h]
      rw [this, alookup_cons, ih, alookup_cons]
      by_cases h2 : k2 = k1
      · subst h2
        have hne : ¬(k2 = k) := fun hc => h (hc ▸ rfl)
        simp [hne]
      · simp [h2]

theorem alookup_apply_override_item (m : PyDict) (kv : String × Value) (k : String) :
    alookup k (apply_override_item m kv) =
      if k = kv.1 then (if kv.2.isNull then none else some kv.2) else alookup k m := by
  obtain ⟨k1, v1⟩ := kv
  simp only [apply_override_item]
  by_cases hn : v1.isNull
  · rw [if_pos hn]
    by_cases hp : (alookup k1 m).isSome
    · rw [if_pos hp, alookup_dict_del]
      by_cases h : k = k1 <;> simp [h, hn]
    · rw [if_neg hp]
      by_cases h : k = k1
      · subst h
        rw [if_pos rfl, if_pos hn]
        rw [Option.not_isSome_iff_eq_none] at hp
        exact hp
      · rw [if_neg h]
  · rw [if_neg hn, alookup_dict_set]
    by_cases h : k = k1 <;> simp [h, hn]

/-! ## Claim C8: the data-override patch step -/

/-- Claim C8 (confirmed): applying a caller-supplied override map after
mapping, a key overridden with None is deleted from the mapped record if
present, a key overridden with a non-None value is set to that value
(replacing an existing mapped value or adding a fresh key), and keys not
mentioned in the override map keep their mapped value. -/
theorem override_patch_semantics (m ov : PyDict)
    (hnd : (ov.map Prod.fst).Nodup) (k : String) :
    alookup k (apply_data_override m ov) =
      match alookup k ov with
      | some v => if v.isNull then none else some v
      | none => alookup k m := by
  induction ov generalizing m with
  | nil => simp [apply_data_override, alookup]
  | cons hd tl ih =>
    obtain ⟨k1, v1⟩ := hd
    rw [List.map_cons, List.nodup_cons] at hnd
    have hfold : apply_data_override m ((k1, v1) :: tl) =
        apply_data_override (apply_override_item m (k1, v1)) tl := rfl
    rw [hfold, ih _ hnd.2, alookup_cons]
    by_cases h : k = k1
    · subst h
      have htl : alookup k tl = none :=
        alookup_eq_none.mpr (fun p hp hc => hnd.1 (hc ▸ List.mem_map.mpr ⟨p, hp, rfl⟩))
      rw [htl, if_pos rfl, alookup_apply_override_item, if_pos rfl]
    · rw [if_neg h]
      cases halt : alookup k tl with
      | some v => simp [halt]
      | none => simp [halt, alookup_apply_override_item, h]

/-- Witness for C8 at a concrete mapped record and override map: the
None-override deletes `a`, the fresh override adds `c`, and the
unmentioned `b` is unchanged. -/
theorem override_patch_semantics_witness :
    alookup ("a") (apply_data_override [(("a"), .intv 1), (("b"), .intv 2)] [(("a"), .null), (("c"), .intv 3)]) = none ∧
    alookup ("c") (apply_data_override [(("a"), .intv 1), (("b"), .intv 2)] [(("a"), .null), (("c"), .intv 3)]) = some (.intv 3) ∧
    alookup ("b") (apply_data_override [(("a"), .intv 1), (("b"), .intv 2)] [(("a"), .null), (("c"), .intv 3)]) = some (.intv 2) :=
  ⟨override_patch_semantics _ _ (by decide) ("a"),
   override_patch_semantics _ _ (by decide) ("c"),
   override_patch_semantics _ _ (by decide) ("b")⟩

/-! ## Claim C2: the static mapping-rule warning -/

/-- The C2 scenario: a rule carrying a static warning whose source value
fails the integer cast. -/
def c2_schema : List (String × MappingRule) :=
  [(("cap"), { source_field := some ("c"), field_type := ("integer"), warning := some ("approximate mapping") })]

/-- The C2 source record. -/
def c2_source : PyDict := [(("c"), .str ("bad"))]

/-- Counterexample to C2 as stated: the rule for `cap` carries the static
warning "approximate mapping", the field is processed (its value fails the
integer cast), yet the returned warnings list holds only the cast-failure
message and not the static warning — the `continue` in the cast-failure
branch skips the unconditional append. -/
theorem static_warning_unconditional_refuted :
    (map_to_taboola c2_schema c2_source).1 =
      .ok ([], [("Could not cast cap to integer. Error: invalid literal for int() with base 10: \x27bad\x27")]) ∧
    ("approximate mapping") ∉
      [("Could not cast cap to integer. Error: invalid literal for int() with base 10: \x27bad\x27")] :=
  ⟨rfl, by decide⟩

/-- Claim C2 (amended): the static warning of a rule is appended whenever the
field is processed — on the successful-cast path, the default path and the
silent-omission path — except when a cast failure skips the rest of that
iteration of that field, in which case the only warning emitted for it is
the cast-failure message. -/
theorem static_warning_except_cast_failure (tf w : String) (rule : MappingRule) (src : PyDict)
    (v : Value) (hw : rule.warning = some w) (hne : w ≠ "")
    (hv : field_value rule src = .ok v) :
    (v.isNull = true →
      map_field tf rule src = .ok
        ⟨(if (rule.default.getD .null).isNull then none else some (tf, rule.default.getD .null)),
         [w],
         (if (rule.default.getD .null).isNull then [no_value_warning tf] else [])⟩) ∧
    (∀ v2, v.isNull = false → cast_value rule.field_type v = .ok v2 →
      map_field tf rule src = .ok ⟨some (tf, v2), [w], []⟩) ∧
    (∀ e, v.isNull = false → cast_value rule.field_type v = .error e →
      map_field tf rule src = .ok ⟨none, [cast_warning tf rule.field_type e], []⟩) := by
  have hsw : static_warning rule = [w] := by simp [static_warning, hw, hne]
  refine ⟨fun hnull => ?_, fun v2 hnn hc => ?_, fun e hnn hc => ?_⟩
  · unfold map_field
    rw [hv]
    by_cases hd : (rule.default.getD .null).isNull <;> simp [hnull, hd, hsw]
  · unfold map_field
    rw [hv]
    simp [hnn, hc, hsw]
  · unfold map_field
    rw [hv]
    simp [hnn, hc]

/-- Witness for the amended C2 at the concrete C2 rule: the cast-failure
path emits exactly the cast message, not the static warning. -/
theorem static_warning_except_cast_failure_witness :
    map_field ("cap") { source_field := some ("c"), field_type := ("integer"), warning := some ("approximate mapping") } c2_source =
      .ok ⟨none, [cast_warning ("cap") ("integer") ⟨("ValueError"), ("invalid literal for int() with base 10: \x27bad\x27")⟩], []⟩ :=
  (static_warning_except_cast_failure ("cap") ("approximate mapping")
    { source_field := some ("c"), field_type := ("integer"), warning := some ("approximate mapping") }
    c2_source (.str ("bad")) rfl (by decide) rfl).2.2
    ⟨("ValueError"), ("invalid literal for int() with base 10: \x27bad\x27")⟩ rfl rfl

/-! ## Claim C4: a mapped field with neither value nor default -/

/-- The C4 scenario: a rule whose source field is absent and which defines
no default. -/
def c4_schema : List (String × MappingRule) := [(("f"), { source_field := some ("missing") })]

/-- Counterexample to C4 as stated: with no value and no default for `f`,
the mapper writes no binding and returns an empty warnings list, but it is
not silent towards the migration report — the add_warning call fires with
the no-value message (second component). -/
theorem silent_omission_refuted :
    map_to_taboola c4_schema [] =
      (.ok ([], []), [("No value or default found for required field \x27f\x27.")]) := rfl

/-- Claim C4 (amended): when the value of a rule is None after read/transform
and no default is defined, no value is written for the target field and
the returned warnings list receives nothing for the omission (only the
static warning of the rule itself, if any) — but a "No value or default found"
warning is appended to the migration report. -/
theorem omission_warns_in_report (tf : String) (rule : MappingRule) (src : PyDict)
    (hv : field_value rule src = .ok .null)
    (hd : (rule.default.getD .null).isNull = true) :
    map_to_taboola [(tf, rule)] src = (.ok ([], static_warning rule), [no_value_warning tf]) := by
  have hmf : map_field tf rule src = .ok ⟨none, static_warning rule, [no_value_warning tf]⟩ := by
    unfold map_field
    rw [hv]
    simp [hd, show Value.null.isNull = true from rfl]
  unfold map_to_taboola map_fields
  rw [hmf]
  simp [map_fields]

/-- Witness for the amended C4 at the concrete C4 rule. -/
theorem omission_warns_in_report_witness :
    map_to_taboola c4_schema [] =
      (.ok ([], static_warning { source_field := some ("missing") }), [no_value_warning ("f")]) :=
  omission_warns_in_report ("f") { source_field := some ("missing") } [] rfl rfl

/-! ## Claim C10: boolean coercion is total -/

/-- Claim C10 (confirmed): for a mapping rule with `field_type` "boolean",
`bool(value)` never raises on the value universe a record can hold, so a
non-None value reaching the coercion step is always cast (to its Python
truthiness) and written to the target record, and the only warning the
field can emit is its static warning — never a cast-failure warning. -/
theorem boolean_cast_never_fails (tf : String) (rule : MappingRule) (src : PyDict) (v : Value)
    (hft : rule.field_type = "boolean")
    (hv : field_value rule src = .ok v) (hnn : v.isNull = false) :
    cast_value rule.field_type v = .ok (.boolv (pyTruthy v)) ∧
    map_field tf rule src = .ok ⟨some (tf, .boolv (pyTruthy v)), static_warning rule, []⟩ := by
  have hc : cast_value rule.field_type v = .ok (.boolv (pyTruthy v)) := by
    rw [hft]; rfl
  refine ⟨hc, ?_⟩
  unfold map_field
  rw [hv]
  simp [hnn, hc]

/-- Witness for C10 at a concrete boolean rule: the falsy value 0 is cast
to False and written, with no warning. -/
theorem boolean_cast_never_fails_witness :
    cast_value ("boolean") (.intv 0) = .ok (.boolv false) ∧
    map_field ("flag") { source_field := some ("x"), field_type := ("boolean") } [(("x"), .intv 0)] =
      .ok ⟨some (("flag"), .boolv false), [], []⟩ :=
  boolean_cast_never_fails ("flag") { source_field := some ("x"), field_type := ("boolean") }
    [(("x"), .intv 0)] (.intv 0) rfl rfl rfl

/-! ## Claim C3: the "daily_budget: bad" mapping scenario -/

/-- The C3 mapping schema: `name` copies `title`; `budget` reads
`daily_budget` as a float through the `divide_by_100` transform. -/
def c3_schema : List (String × MappingRule) :=
  [ (("name"), { source_field := some ("title") }),
    (("budget"), { source_field := some ("daily_budget"), field_type := ("float"), transform := some ("divide_by_100") }) ]

/-- The C3 source record with the non-castable budget. -/
def c3_source_bad : PyDict := [(("title"), .str ("Promo")), (("daily_budget"), .str ("bad"))]

/-- The companion record of spec section 8 with a numeric budget. -/
def c3_source_good : PyDict := [(("title"), .str ("Promo")), (("daily_budget"), .intv 2000)]

/-- Embeds `Except.isOk` for the modelled results. -/
def except_is_ok {α : Type} : Except PyErr α → Bool
  | .ok _ => true
  | .error _ => false

/-- Counterexample to C3 as stated: mapping the record with
`daily_budget = "bad"` does not return normally — `_divide_by_100` is
applied before the cast step and `"bad" / 100` raises TypeError, which
propagates out of `map_to_taboola`, so no cast-failure warning is ever
produced for `budget`. -/
theorem bad_budget_mapping_returns_normally_refuted :
    except_is_ok (map_to_taboola c3_schema c3_source_bad).1 = false ∧
    (map_to_taboola c3_schema c3_source_bad).1 =
      .error ⟨("TypeError"), ("unsupported operand type(s) for /: \x27str\x27 and \x27int\x27")⟩ :=
  ⟨rfl, rfl⟩

/-- Claim C3 (amended): mapping `\x7b"title": "Promo", "daily_budget":
"bad"\x7d` through the C3 schema raises TypeError from the
`divide_by_100` transform (`"bad" / 100`) before the cast is attempted —
the orchestrator turns this into a per-record failure — while the
companion record with numeric `daily_budget = 2000` maps to
`\x7b"name": "Promo", "budget": 20.0\x7d` with no warnings. -/
theorem bad_budget_mapping_raises_type_error :
    map_to_taboola c3_schema c3_source_bad =
      (.error ⟨("TypeError"), ("unsupported operand type(s) for /: \x27str\x27 and \x27int\x27")⟩, []) ∧
    map_to_taboola c3_schema c3_source_good =
      (.ok ([(("name"), .str ("Promo")), (("budget"), .num 20)], []), []) := by
  constructor
  · rfl
  · have h1 : map_to_taboola c3_schema c3_source_good =
        (.ok ([(("name"), .str ("Promo")), (("budget"), .num (((2000 : Int) : Rat) / 100))], []), []) := rfl
    have h2 : ((2000 : Int) : Rat) / 100 = 20 := by norm_num
    rw [h1, h2]

/-! ## Claim C9: requesting a schema for an undefined platform -/

/-- Counterexample to C9 as stated: the validator-side
`PlatformSchema("linkedin")` does not fail — its loader returns an empty
rule set, under which batch validation happily accepts an empty record. -/
theorem schema_not_found_refuted :
    load_platform_schema ("linkedin") = [] ∧
    validate_campaigns_against_schema [[]] ("linkedin") = ([[]], []) :=
  ⟨rfl, rfl⟩

/-- Claim C9 (amended): only the adapter-side mapping-schema load fails for
a platform with no definition (the missing schema file raises
FileNotFoundError, re-raised by `_load_schema`); the validator-side
`PlatformSchema` silently succeeds with an empty rule set for every
platform other than facebook and twitter. -/
theorem schema_lookup_amended :
    (∀ parsed, except_is_ok (load_schema parsed) = except_is_ok (parsed.getD (.error ⟨("FileNotFoundError"), ("No such file or directory")⟩))) ∧
    (load_schema none = .error ⟨("FileNotFoundError"), ("No such file or directory")⟩) ∧
    (∀ p, p ≠ "facebook" → p ≠ "twitter" → load_platform_schema p = []) := by
  refine ⟨fun parsed => ?_, rfl, fun p h1 h2 => ?_⟩
  · rcases parsed with _ | e
    · rfl
    · rcases e with e | s <;> rfl
  · unfold load_platform_schema
    rw [if_neg h1, if_neg h2]

/-- Witness for the amended C9 at the concrete platform "linkedin". -/
theorem schema_lookup_amended_witness :
    load_platform_schema ("linkedin") = [] :=
  schema_lookup_amended.2.2 ("linkedin") (by decide) (by decide)

/-! ## Field-path bookkeeping lemmas for the validator -/

theorem range_issues_path (v : Value) (ft : FieldType) (mn mx : Option Rat) (idx : Nat) (p : String) :
    ∀ i ∈ range_issues v ft mn mx idx p, i.field_path = p := by
  intro i hi
  unfold range_issues at hi
  split at hi
  · split at hi
    · rcases List.mem_append.mp hi with h2 | h2 <;>
        (split at h2 <;> (try split at h2) <;> simp_all [too_small_issue, too_large_issue])
    · simp at hi
  · simp at hi

theorem allowed_issues_path (v : Value) (allowed : List Value) (idx : Nat) (p : String) :
    ∀ i ∈ allowed_issues v allowed idx p, i.field_path = p := by
  intro i hi
  unfold allowed_issues at hi
  split at hi <;> simp_all [invalid_value_issue]

theorem empty_string_issues_path (v : Value) (ft : FieldType) (idx : Nat) (p : String) :
    ∀ i ∈ empty_string_issues v ft idx p, i.field_path = p := by
  intro i hi
  unfold empty_string_issues at hi
  split at hi
  · split at hi <;> simp_all [empty_string_issue]
  · simp at hi

theorem fieldDefinition_sizeOf_pos (fd : FieldDefinition) : 0 < sizeOf fd := by
  cases fd
  simp_arith

theorem dot_mem_dotted (p k : String) : '.' ∈ (p ++ "." ++ k).data := by
  have h : (p ++ "." ++ k).data = p.data ++ ('.' :: k.data) := by
    rw [String.data_append, String.data_append, List.append_assoc]
    rfl
  rw [h]
  exact List.mem_append_right _ (List.mem_cons_self _ _)

/-- Every issue produced by validating one field at path `p` either sits at
`p` itself or at a dot-extended nested path; issues from the nested loop
always have a dot in their path. -/
theorem validate_path_aux (n : Nat) :
    (∀ fd : FieldDefinition, sizeOf fd ≤ n → ∀ v idx p i, i ∈ validate_field_value v fd idx p →
      i.field_path = p ∨ '.' ∈ i.field_path.data) ∧
    (∀ ns : List (String × FieldDefinition), sizeOf ns ≤ n →
      ∀ e idx p i, i ∈ validate_nested e ns idx p → '.' ∈ i.field_path.data) := by
  induction n with
  | zero =>
    constructor
    · intro fd hle
      have := fieldDefinition_sizeOf_pos fd
      omega
    · intro ns hle
      cases ns <;> simp_arith at hle
  | succ n ih =>
    constructor
    · intro fd hle v idx p i hi
      obtain ⟨nm, ft, req, desc, mn, mx, av, ns⟩ := fd
      unfold validate_field_value at hi
      split at hi
      · left
        simp_all [type_mismatch_issue]
      · rcases List.mem_append.mp hi with h1 | h1
        · rcases List.mem_append.mp h1 with h2 | h2
          · rcases List.mem_append.mp h2 with h3 | h3
            · exact Or.inl (range_issues_path _ _ _ _ _ _ _ h3)
            · exact Or.inl (allowed_issues_path _ _ _ _ _ h3)
          · exact Or.inl (empty_string_issues_path _ _ _ _ _ h2)
        · split at h1
          · split at h1
            · have hns : sizeOf ns ≤ n := by
                simp_arith at hle
                omega
              exact Or.inr (ih.2 ns hns _ idx p i h1)
            · simp at h1
          · simp at h1
    · intro ns hle e idx p i hi
      cases ns with
      | nil => simp [validate_nested] at hi
      | cons hd rest =>
        obtain ⟨k, nd⟩ := hd
        unfold validate_nested at hi
        rcases List.mem_append.mp hi with h1 | h1
        · split at h1
          · have hnd : sizeOf nd ≤ n := by
              simp_arith at hle
              omega
            rcases ih.1 nd hnd _ idx (p ++ "." ++ k) i h1 with hp | hp
            · rw [hp]
              exact dot_mem_dotted p k
            · exact hp
          · simp at h1
        · have hrest : sizeOf rest ≤ n := by
            simp_arith at hle
            omega
          exact ih.2 rest hrest e idx p i h1

/-- Packaged form of the path invariant for a single field. -/
theorem validate_field_value_path (fd : FieldDefinition) (v : Value) (idx : Nat) (p : String) :
    ∀ i ∈ validate_field_value v fd idx p, i.field_path = p ∨ '.' ∈ i.field_path.data :=
  (validate_path_aux (sizeOf fd)).1 fd le_rfl v idx p

/-! ## Claims C5 and C6: per-field issue isolation in the validator -/

theorem validate_schema_field_filter_other (campaign : PyDict) (idx : Nat)
    (fname : String) (k2 : String) (fd2 : FieldDefinition)
    (hne : k2 ≠ fname) (hdot : '.' ∉ fname.data) :
    (validate_schema_field campaign idx k2 fd2).filter (fun i => i.field_path == fname) = [] := by
  rw [List.filter_eq_nil_iff]
  intro i hi
  unfold validate_schema_field at hi
  simp only [beq_iff_eq]
  split at hi
  · split at hi
    · rw [List.mem_singleton] at hi
      rw [hi]
      exact fun hc => hne hc
    · simp at hi
  · rcases validate_field_value_path fd2 _ idx k2 i hi with hp | hp
    · rw [hp]
      exact fun hc => hne hc
    · exact fun hc => hdot (hc ▸ hp)

theorem schema_loop_filter_all_other (campaign : PyDict) (idx : Nat) (fname : String)
    (l : List (String × FieldDefinition))
    (hall : ∀ p ∈ l, p.1 ≠ fname) (hdot : '.' ∉ fname.data) :
    (l.flatMap (fun p => validate_schema_field campaign idx p.1 p.2)).filter
      (fun i => i.field_path == fname) = [] := by
  induction l with
  | nil => simp
  | cons hd tl ih =>
    obtain ⟨k2, fd2⟩ := hd
    rw [List.flatMap_cons, List.filter_append,
      validate_schema_field_filter_other campaign idx fname k2 fd2
        (hall (k2, fd2) (List.mem_cons_self _ _)) hdot,
      List.nil_append]
    exact ih (fun p hp => hall p (List.mem_cons_of_mem _ hp))

theorem schema_loop_filter_mem (campaign : PyDict) (idx : Nat) (fname : String)
    (fd : FieldDefinition) (l : List (String × FieldDefinition))
    (hmem : (fname, fd) ∈ l) (hnd : (l.map Prod.fst).Nodup) (hdot : '.' ∉ fname.data) :
    (l.flatMap (fun p => validate_schema_field campaign idx p.1 p.2)).filter
      (fun i => i.field_path == fname) =
    (validate_schema_field campaign idx fname fd).filter (fun i => i.field_path == fname) := by
  induction l with
  | nil => cases hmem
  | cons hd tl ih =>
    obtain ⟨k2, fd2⟩ := hd
    rw [List.map_cons, List.nodup_cons] at hnd
    rw [List.flatMap_cons, List.filter_append]
    rcases List.mem_cons.mp hmem with heq | htl
    · obtain ⟨hk, hfd⟩ := Prod.mk.injEq .. ▸ heq
      subst hk; subst hfd
      rw [schema_loop_filter_all_other campaign idx fname tl
        (fun p hp hc => hnd.1 (hc ▸ List.mem_map.mpr ⟨p, hp, rfl⟩)) hdot,
        List.append_nil]
    · have hne : k2 ≠ fname := by
        intro hc
        exact hnd.1 (hc ▸ List.mem_map.mpr ⟨(fname, fd), htl, rfl⟩)
      rw [validate_schema_field_filter_other campaign idx fname k2 fd2 hne hdot,
        List.nil_append]
      exact ih htl hnd.2

theorem unknown_loop_filter (campaign : PyDict) (platform : String)
    (schema_fields : List (String × FieldDefinition)) (idx : Nat) (fname : String)
    (h : ∀ p ∈ campaign, p.1 ≠ fname ∨ (alookup p.1 schema_fields).isSome) :
    (campaign.flatMap (fun p =>
      if (alookup p.1 schema_fields).isSome then []
      else [unknown_field_issue idx p.1 p.2 platform])).filter
      (fun i => i.field_path == fname) = [] := by
  rw [List.filter_eq_nil_iff]
  intro i hi
  simp only [beq_iff_eq]
  rcases List.mem_flatMap.mp hi with ⟨p, hp, hip⟩
  rcases h p hp with hne | hsome
  · split at hip
    · simp at hip
    · rw [List.mem_singleton] at hip
      rw [hip]
      exact fun hc => hne hc
  · rw [if_pos hsome] at hip
    simp at hip

/-- Claim C5 (confirmed): for every validation-schema field that is
`required` and absent from the record, the validator emits exactly the one
`missing_required_field` issue at the path of that field — no type, range,
allowed-value or emptiness check runs for it, and no other schema field or
unknown-field check touches that path (field names carry no dot, so nested
dotted paths cannot collide). -/
theorem missing_required_single_issue (campaign : PyDict) (platform : String)
    (schema_fields : List (String × FieldDefinition)) (idx : Nat)
    (fname : String) (fd : FieldDefinition)
    (hmem : (fname, fd) ∈ schema_fields)
    (hnd : (schema_fields.map Prod.fst).Nodup)
    (hreq : fd.required = true)
    (habs : alookup fname campaign = none)
    (hdot : '.' ∉ fname.data) :
    (validate_single_campaign campaign platform schema_fields idx).filter
      (fun i => i.field_path == fname) = [missing_issue idx fname fd] := by
  unfold validate_single_campaign
  rw [List.filter_append,
    schema_loop_filter_mem campaign idx fname fd schema_fields hmem hnd hdot,
    unknown_loop_filter campaign platform schema_fields idx fname
      (fun p hp => Or.inl (alookup_eq_none.mp habs p hp)),
    List.append_nil]
  unfold validate_schema_field
  rw [habs, if_pos hreq]
  simp [missing_issue]

/-- Witness for C5: the empty record against the facebook schema, whose
required `name` field is absent. -/
theorem missing_required_single_issue_witness :
    (validate_single_campaign [] ("facebook") (load_platform_schema ("facebook")) 0).filter
      (fun i => i.field_path == ("name")) =
      [missing_issue 0 ("name")
        (.mk ("name") .string true ("Campaign name - must be a non-empty string") none none [] [])] :=
  missing_required_single_issue [] ("facebook") (load_platform_schema ("facebook")) 0 ("name")
    (.mk ("name") .string true ("Campaign name - must be a non-empty string") none none [] [])
    (List.mem_cons_self _ _) (by decide) rfl rfl (by decide)

/-- Claim C6 (confirmed): for every field present in both record and
validation schema whose value fails the declared type check, the validator
emits exactly the one `type_mismatch` issue at the path of that field and
nothing else for that path — bounds, allowed-values, empty-string and
nested checks are all suppressed by the early return. -/
theorem type_mismatch_single_issue (campaign : PyDict) (platform : String)
    (schema_fields : List (String × FieldDefinition)) (idx : Nat)
    (fname : String) (fd : FieldDefinition) (v : Value)
    (hmem : (fname, fd) ∈ schema_fields)
    (hnd : (schema_fields.map Prod.fst).Nodup)
    (hpres : alookup fname campaign = some v)
    (hmis : check_type v fd.field_type = false)
    (hdot : '.' ∉ fname.data) :
    (validate_single_campaign campaign platform schema_fields idx).filter
      (fun i => i.field_path == fname) = [type_mismatch_issue idx fname fd.field_type v] := by
  have hsome : (alookup fname schema_fields).isSome := by
    rw [alookup_eq_some_of_mem_nodup hmem hnd]
    rfl
  unfold validate_single_campaign
  rw [List.filter_append,
    schema_loop_filter_mem campaign idx fname fd schema_fields hmem hnd hdot,
    unknown_loop_filter campaign platform schema_fields idx fname
      (fun p hp => by
        by_cases hc : p.1 = fname
        · exact Or.inr (hc ▸ hsome)
        · exact Or.inl hc),
    List.append_nil]
  unfold validate_schema_field
  rw [hpres]
  obtain ⟨nm, ft, req, desc, mn, mx, av, ns⟩ := fd
  simp only [FieldDefinition.field_type] at hmis
  unfold validate_field_value
  rw [hmis]
  simp [type_mismatch_issue, FieldDefinition.field_type]

/-- Witness for C6: a record whose `name` is an int against the facebook
schema (string expected). -/
theorem type_mismatch_single_issue_witness :
    (validate_single_campaign [(("name"), .intv 5)] ("facebook") (load_platform_schema ("facebook")) 0).filter
      (fun i => i.field_path == ("name")) = [type_mismatch_issue 0 ("name") .string (.intv 5)] :=
  type_mismatch_single_issue [(("name"), .intv 5)] ("facebook") (load_platform_schema ("facebook")) 0
    ("name") (.mk ("name") .string true ("Campaign name - must be a non-empty string") none none [] [])
    (.intv 5) (List.mem_cons_self _ _) (by decide) rfl rfl (by decide)

/-! ## Claim C7: batch validation partitions records and concatenates issues -/

theorem validate_campaigns_loop_spec (platform : String)
    (schema_fields : List (String × FieldDefinition)) (cs : List PyDict) (n : Nat) :
    validate_campaigns_loop platform schema_fields cs n =
      ( ((cs.enumFrom n).filter
          (fun p => (validate_single_campaign p.2 platform schema_fields p.1).isEmpty)).map Prod.snd,
        (cs.enumFrom n).flatMap
          (fun p => validate_single_campaign p.2 platform schema_fields p.1) ) := by
  induction cs generalizing n with
  | nil => simp [validate_campaigns_loop]
  | cons c rest ih =>
    simp only [validate_campaigns_loop, ih (n + 1), List.enumFrom_cons, List.filter_cons,
      List.flatMap_cons]
    by_cases he : (validate_single_campaign c platform schema_fields n).isEmpty
    · rw [List.isEmpty_iff] at he
      simp [he]
    · simp [he]

/-- Claim C7 (confirmed): batch validation returns exactly the
order-preserving subsequence of records whose validation at their 0-based
batch index produces no issues, together with the concatenation, in batch
order, of the issues of every record validated at its batch index. -/
theorem batch_validation_partition (campaigns : List PyDict) (platform : String) :
    validate_campaigns_against_schema campaigns platform =
      ( ((campaigns.enum).filter
          (fun p => (validate_single_campaign p.2 platform (load_platform_schema platform) p.1).isEmpty)).map Prod.snd,
        (campaigns.enum).flatMap
          (fun p => validate_single_campaign p.2 platform (load_platform_schema platform) p.1) ) := by
  unfold validate_campaigns_against_schema
  rw [validate_campaigns_loop_spec]
  rfl

/-! ## Claim C1: batch migration with a rejected upload -/

theorem process_file_record_clean_counts (schema : List (String × MappingRule))
    (sink : PyDict → Except PyErr PyDict) (i : Nat) (c : PyDict) (r : MigrationReport) (d : PyDict)
    (h : map_to_taboola schema c = (.ok (d, []), [])) :
    (process_file_record schema sink i c r).warnings = r.warnings ∧
    (except_is_ok (sink d) = true →
      (process_file_record schema sink i c r).successes.length = r.successes.length + 2 ∧
      (process_file_record schema sink i c r).failures.length = r.failures.length) ∧
    (except_is_ok (sink d) = false →
      (process_file_record schema sink i c r).successes.length = r.successes.length + 1 ∧
      (process_file_record schema sink i c r).failures.length = r.failures.length + 1) := by
  unfold process_file_record
  rw [h]
  cases hs : sink d with
  | ok resp =>
    refine ⟨?_, fun _ => ⟨?_, ?_⟩, fun hc => ?_⟩
    · simp [upload_to_taboola, hs]
    · simp [upload_to_taboola, hs]
    · simp [upload_to_taboola, hs]
    · simp [except_is_ok] at hc
  | error e =>
    refine ⟨?_, fun hc => ?_, fun _ => ⟨?_, ?_⟩⟩
    · simp [upload_to_taboola, hs]
    · simp [except_is_ok] at hc
    · simp [upload_to_taboola, hs]
    · simp [upload_to_taboola, hs]

theorem process_file_records_counts (schema : List (String × MappingRule))
    (sink : PyDict → Except PyErr PyDict) (f : PyDict → PyDict) (cs : List PyDict) :
    ∀ (i : Nat) (r : MigrationReport),
    (∀ c ∈ cs, map_to_taboola schema c = (.ok (f c, []), [])) →
    (process_file_records schema sink cs i r).warnings = r.warnings ∧
    (process_file_records schema sink cs i r).failures.length =
      r.failures.length + cs.countP (fun c => !except_is_ok (sink (f c))) ∧
    (process_file_records schema sink cs i r).successes.length =
      r.successes.length + 2 * cs.length - cs.countP (fun c => !except_is_ok (sink (f c))) := by
  induction cs with
  | nil =>
    intro i r _
    simp [process_file_records]
  | cons c rest ih =>
    intro i r h
    have hc := h c (List.mem_cons_self _ _)
    have hrest := fun c2 h2 => h c2 (List.mem_cons_of_mem _ h2)
    have hcle : rest.countP (fun c2 => !except_is_ok (sink (f c2))) ≤ rest.length :=
      List.countP_le_length _
    rw [process_file_records]
    rcases process_file_record_clean_counts schema sink i c r (f c) hc with ⟨hw1, hok, herr⟩
    rcases ih (i + 1) (process_file_record schema sink i c r) hrest with ⟨hw2, hf2, hs2⟩
    by_cases hsk : except_is_ok (sink (f c))
    · rcases hok hsk with ⟨hsl, hfl⟩
      refine ⟨by rw [hw2, hw1], ?_, ?_⟩
      · rw [hf2, hfl, List.countP_cons]
        simp [hsk]
      · rw [hs2, hsl, List.countP_cons]
        simp only [hsk, Bool.not_true, if_neg, List.length_cons]
        simp
        omega
    · rw [Bool.not_eq_true] at hsk
      rcases herr hsk with ⟨hsl, hfl⟩
      refine ⟨by rw [hw2, hw1], ?_, ?_⟩
      · rw [hf2, hfl, List.countP_cons]
        simp [hsk]
        omega
      · rw [hs2, hsl, List.countP_cons]
        simp [hsk]
        omega

/-- Claim C1 (amended): over a batch whose every record maps cleanly (no
mapper warnings), the report receives exactly one failure entry per
sink-rejected record and the batch never aborts — but the success count is
2N − R, not N − R: each cleanly-uploaded record contributes two success
entries ("created in Taboola" and "Successfully migrated"), and a rejected
record still contributes its "Successfully migrated" entry because
`_upload_to_taboola` records the rejection as a failure without signalling
it to the loop.  With exactly one rejected record the report thus holds
1 failure and 2N − 1 successes rather than the claimed N − 1. -/
theorem batch_migration_report_counts (schema : List (String × MappingRule))
    (sink : PyDict → Except PyErr PyDict) (f : PyDict → PyDict) (cs : List PyDict)
    (hmap : ∀ c ∈ cs, map_to_taboola schema c = (.ok (f c, []), [])) :
    (migrate_campaigns_from_file [(("facebook"), schema)] sink ("facebook") cs).warnings = [] ∧
    (migrate_campaigns_from_file [(("facebook"), schema)] sink ("facebook") cs).failures.length =
      cs.countP (fun c => !except_is_ok (sink (f c))) ∧
    (migrate_campaigns_from_file [(("facebook"), schema)] sink ("facebook") cs).successes.length =
      2 * cs.length - cs.countP (fun c => !except_is_ok (sink (f c))) := by
  have hm : migrate_campaigns_from_file [(("facebook"), schema)] sink ("facebook") cs =
      process_file_records schema sink cs 0 ⟨[], [], []⟩ := rfl
  rw [hm]
  rcases process_file_records_counts schema sink f cs 0 ⟨[], [], []⟩ hmap with ⟨hw, hf, hs⟩
  refine ⟨hw, ?_, ?_⟩
  · rw [hf]
    simp
  · rw [hs]
    simp

/-- The C1 scenario schema: copy the name field of the record. -/
def c1_schema : List (String × MappingRule) := [(("name"), { source_field := some ("name") })]

/-- The C1 upload sink: rejects exactly the record named `r1` with an
ApiException, accepts everything else. -/
def c1_sink : PyDict → Except PyErr PyDict := fun d =>
  match alookup ("name") d with
  | some (.str s) =>
    if s = "r1" then .error ⟨("ApiException"), ("Mock upload rejected")⟩
    else .ok (d ++ [(("id"), .str ("taboola_campaign_98765"))])
  | _ => .ok d

/-- The C1 batch: two records, the first of which the sink rejects. -/
def c1_data : List PyDict := [[(("name"), .str ("r1"))], [(("name"), .str ("r2"))]]

/-- Counterexample to C1 as stated: N = 2 records, record 0 rejected by
the sink, record 1 uploaded cleanly.  The claim demands N − 1 = 1 success
(or warning) entry and 1 failure entry; the report actually holds 3
success entries, 0 warnings and 1 failure — including a "Successfully
migrated campaign r1" success for the very record whose upload was
rejected. -/
theorem batch_report_claimed_counts_refuted :
    (migrate_campaigns_from_file [(("facebook"), c1_schema)] c1_sink ("facebook") c1_data).successes.length = 3 ∧
    (migrate_campaigns_from_file [(("facebook"), c1_schema)] c1_sink ("facebook") c1_data).warnings.length = 0 ∧
    (migrate_campaigns_from_file [(("facebook"), c1_schema)] c1_sink ("facebook") c1_data).failures.length = 1 ∧
    ("Successfully migrated campaign \x27r1\x27") ∈
      (migrate_campaigns_from_file [(("facebook"), c1_schema)] c1_sink ("facebook") c1_data).successes :=
  ⟨rfl, rfl, rfl, by decide⟩

/-- The witness sink for the amended C1: rejects everything. -/
def c1w_sink : PyDict → Except PyErr PyDict :=
  fun _ => .error ⟨("ApiException"), ("Mock upload rejected")⟩

/-- Witness for the amended C1: a one-record batch whose single upload is
rejected yields 1 failure and 2·1 − 1 = 1 success. -/
theorem batch_migration_report_counts_witness :
    (migrate_campaigns_from_file [(("facebook"), ([] : List (String × MappingRule)))] c1w_sink ("facebook") [[]]).warnings = [] ∧
    (migrate_campaigns_from_file [(("facebook"), ([] : List (String × MappingRule)))] c1w_sink ("facebook") [[]]).failures.length = 1 ∧
    (migrate_campaigns_from_file [(("facebook"), ([] : List (String × MappingRule)))] c1w_sink ("facebook") [[]]).successes.length = 1 :=
  batch_migration_report_counts [] c1w_sink (fun _ => []) [[]] (fun _ _ => rfl)
